import Mathlib

set_option maxRecDepth 8000

/-! Verification development for the heliocron core: a shallow embedding of
src/src/domain.rs together with a model, built from the specification, of the
solar-calculation module that the repository snapshot does not include.
Floating-point values are embedded as exact rationals extended with a NaN
element whose comparisons are all false, mirroring IEEE comparison semantics
for the orderings the code performs. -/

/-- Model of an f64 as used by the repository: either NaN or a finite value
represented exactly as a rational number. Decimal literals of the source are
mapped to their exact decimal value. -/
inductive F where
  | nan : F
  | val (q : ℚ) : F
deriving DecidableEq, Repr

/-- Strict comparison on model floats: any comparison involving NaN is false,
as in IEEE-754 / Rust f64. -/
def F.lt : F → F → Bool
  | F.val a, F.val b => decide (a < b)
  | _, _ => false

/-- Non-strict comparison on model floats: any comparison involving NaN is
false, as in IEEE-754 / Rust f64. -/
def F.le : F → F → Bool
  | F.val a, F.val b => decide (a ≤ b)
  | _, _ => false

/-- The finite value of a model float; validated quantities are always finite,
so the NaN arm is never reached from validated inputs. -/
def F.toRat : F → ℚ
  | F.nan => 0
  | F.val q => q

/-- Rendering of a model float, standing in for the Display implementation of
f64 used by the format strings of domain.rs. -/
def F.render : F → String
  | F.nan => "NaN"
  | F.val q => if q.den = 1 then toString q.num else toString q.num ++ "/" ++ toString q.den

/-- A single-quote character, used by the format strings of domain.rs. -/
def squo : String := String.mk [Char.ofNat 39]

/-- A backtick character, used by the format strings of domain.rs. -/
def btick : String := String.mk [Char.ofNat 96]

/-- Translated from src/src/domain.rs lines 8-14: the parts of the day. -/
inductive DayPart where
  | Day
  | CivilTwilight
  | NauticalTwilight
  | AstronomicalTwilight
  | Night
deriving DecidableEq, Repr

/-- Translated from DayPart::from_elevation_angle, src/src/domain.rs lines
17-29: the branch chain of strict f64 comparisons. -/
def DayPart.from_elevation_angle (angle : F) : DayPart :=
  if F.lt angle (F.val (-18)) then DayPart.Night
  else if F.lt angle (F.val (-12)) then DayPart.AstronomicalTwilight
  else if F.lt angle (F.val (-6)) then DayPart.NauticalTwilight
  else if F.lt angle (F.val (833/1000)) then DayPart.CivilTwilight
  else DayPart.Day

/-- Digit test for the decimal parser model. -/
def isDig (c : Char) : Bool := decide (48 ≤ c.toNat) && decide (c.toNat ≤ 57)

/-- Numeric value of a digit character. -/
def digVal (c : Char) : ℕ := c.toNat - 48

/-- Natural number denoted by a most-significant-first digit list. -/
def natOfDigits (l : List Char) : ℕ := l.foldl (fun a c => 10 * a + digVal c) 0

/-- Splits a character list at every dot, like splitting a string on ".". -/
def splitDot : List Char → List (List Char)
  | [] => [[]]
  | c :: t =>
      if c = Char.ofNat 46 then [] :: splitDot t
      else
        match splitDot t with
        | [] => [[c]]
        | h :: r => (c :: h) :: r

/-- Value of the unsigned part of a decimal literal: digits with at most one
dot and at least one digit overall, as accepted by Rust f64 parsing for plain
decimal literals. -/
def decOfChars (cs : List Char) : Option ℚ :=
  match splitDot cs with
  | [w] =>
      if decide (0 < w.length) && w.all isDig then
        some ((natOfDigits w : ℚ))
      else none
  | [w, f] =>
      if decide (0 < w.length + f.length) && w.all isDig && f.all isDig then
        some ((natOfDigits w : ℚ) + (natOfDigits f : ℚ) / ((10 : ℚ) ^ f.length))
      else none
  | _ => none

/-- Model of Rust str::parse::<f64> restricted to plain signed decimal
literals; the error strings are the Display renderings of ParseFloatError
("cannot parse float from empty string" / "invalid float literal"). Special
forms (inf, NaN, exponents) are outside the inputs exercised here and are
rejected like any other non-literal. -/
def parseFloat (s : String) : Except String F :=
  if s.data.isEmpty then Except.error "cannot parse float from empty string"
  else
    let body :=
      match s.data with
      | c :: cs =>
          if c = Char.ofNat 45 then (true, cs)
          else if c = Char.ofNat 43 then (false, cs)
          else (false, s.data)
      | [] => (false, ([] : List Char))
    match decOfChars body.2 with
    | some q => Except.ok (F.val (if body.1 then -q else q))
    | none => Except.error "invalid float literal"

/-- Whether the first list occurs as a contiguous sublist of the second. -/
def isPref : List Char → List Char → Bool
  | [], _ => true
  | _ :: _, [] => false
  | a :: as, b :: bs => a == b && isPref as bs

/-- Whether sub occurs contiguously anywhere inside hay. -/
def hasSub (sub : List Char) : List Char → Bool
  | [] => sub.isEmpty
  | c :: t => isPref sub (c :: t) || hasSub sub t

/-- Decidable equality for fallible results, used to evaluate the validation
constructors at concrete inputs. -/
instance {ε α : Type} [DecidableEq ε] [DecidableEq α] : DecidableEq (Except ε α) := fun x y =>
  match x, y with
  | Except.ok a, Except.ok b =>
      decidable_of_iff (a = b) ⟨fun h => by rw [h], fun h => by injection h⟩
  | Except.ok _, Except.error _ => isFalse (fun h => Except.noConfusion h)
  | Except.error _, Except.ok _ => isFalse (fun h => Except.noConfusion h)
  | Except.error d, Except.error e =>
      decidable_of_iff (d = e) ⟨fun h => by rw [h], fun h => by injection h⟩

/-- Translated from src/src/domain.rs line 94: newtype for an altitude. -/
structure Altitude where
  val : F
deriving DecidableEq, Repr

/-- The failure message template of Altitude::new and Altitude::parse,
src/src/domain.rs lines 101-103 and 110-112: the interpolated text is
surrounded by single quotes. -/
def altitudeMsg (shown : String) : String :=
  "Expected a number between -90.0 and 90.0. Found " ++ squo ++ shown ++ squo

/-- Translated from Altitude::new, src/src/domain.rs lines 97-105. -/
def Altitude.new (alt : F) : Except String Altitude :=
  if F.le (F.val (-90)) alt && F.le alt (F.val 90) then
    Except.ok (Altitude.mk alt)
  else
    Except.error (altitudeMsg (F.render alt))

/-- Translated from Altitude::parse, src/src/domain.rs lines 107-114. In the
source the Err arm rebinds the name alt to the ParseFloatError, so the
interpolated text is the rendering of the parse error, not the input. -/
def Altitude.parse (s : String) : Except String Altitude :=
  match parseFloat s with
  | Except.ok a => Altitude.new a
  | Except.error e => Except.error (altitudeMsg e)

/-- Translated from the From f64 implementation for Altitude, src/src/domain.rs
lines 117-121: the unwrap panic on an out-of-range input is modelled as none. -/
def Altitude.fromF64 (alt : F) : Option Altitude :=
  (Altitude.new alt).toOption

/-- Dereference of Altitude, the Deref implementation of src/src/domain.rs. -/
def Altitude.deref (a : Altitude) : F := a.val

/-- Translated from src/src/domain.rs line 253: newtype for a latitude. -/
structure Latitude where
  val : F
deriving DecidableEq, Repr

/-- The failure message of Latitude::new, src/src/domain.rs lines 260-262:
the interpolated text is surrounded by backticks, with a trailing period. -/
def latitudeMsg (shown : String) : String :=
  "Latitude must be between -90.0 and 90.0, inclusive. Found " ++ btick ++ shown ++ btick ++ "."

/-- Translated from Latitude::new, src/src/domain.rs lines 257-264: validates
membership of the closed range -90.0 ..= 90.0. -/
def Latitude.new (value : F) : Except String Latitude :=
  if F.le (F.val (-90)) value && F.le value (F.val 90) then
    Except.ok (Latitude.mk value)
  else
    Except.error (latitudeMsg (F.render value))

/-- Translated from Latitude::parse, src/src/domain.rs lines 268-275: a parse
failure reports the raw input string; a parsed value goes through new. -/
def Latitude.parse (s : String) : Except String Latitude :=
  match parseFloat s with
  | Except.ok v => Latitude.new v
  | Except.error _ => Except.error (latitudeMsg s)

/-- Dereference of Latitude, the Deref implementation of src/src/domain.rs. -/
def Latitude.deref (l : Latitude) : F := l.val

/-- Translated from src/src/domain.rs line 294: newtype for a longitude. -/
structure Longitude where
  val : F
deriving DecidableEq, Repr

/-- The failure message of Longitude::new, src/src/domain.rs lines 301-303:
the interpolated text is surrounded by single quotes, with a trailing period. -/
def longitudeMsgNew (shown : String) : String :=
  "Longitude must be between -180.0 and 180.0, inclusive. Found " ++ squo ++ shown ++ squo ++ "."

/-- The failure message of Longitude::parse, src/src/domain.rs lines 312-313:
the interpolated text is surrounded by backticks, with a trailing period. -/
def longitudeMsgParse (shown : String) : String :=
  "Longitude must be between -180.0 and 180.0, inclusive. Found " ++ btick ++ shown ++ btick ++ "."

/-- Translated from Longitude::new, src/src/domain.rs lines 298-305: validates
membership of the closed range -180.0 ..= 180.0. -/
def Longitude.new (value : F) : Except String Longitude :=
  if F.le (F.val (-180)) value && F.le value (F.val 180) then
    Except.ok (Longitude.mk value)
  else
    Except.error (longitudeMsgNew (F.render value))

/-- Translated from Longitude::parse, src/src/domain.rs lines 309-316. -/
def Longitude.parse (s : String) : Except String Longitude :=
  match parseFloat s with
  | Except.ok v => Longitude.new v
  | Except.error _ => Except.error (longitudeMsgParse s)

/-- Dereference of Longitude, the Deref implementation of src/src/domain.rs. -/
def Longitude.deref (l : Longitude) : F := l.val

/-- Translated from src/src/domain.rs lines 334-337. -/
structure Coordinates where
  latitude : Latitude
  longitude : Longitude
deriving DecidableEq, Repr

/-- Translated from src/src/domain.rs lines 167-170: direction of solar travel. -/
inductive Direction where
  | Ascending
  | Descending
deriving DecidableEq, Repr

/-- Translated from src/src/domain.rs lines 175-178: an event occurring when
the Sun reaches a specific elevation. -/
structure FixedElevationEvent where
  degrees_below_horizon : Altitude
  solar_direction : Direction
deriving DecidableEq, Repr

/-- Translated from FixedElevationEvent::new, src/src/domain.rs lines 181-186. -/
def FixedElevationEvent.new (degrees_below_horizon : Altitude)
    (solar_direction : Direction) : FixedElevationEvent :=
  FixedElevationEvent.mk degrees_below_horizon solar_direction

/-- Translated from src/src/domain.rs lines 192-194. -/
inductive VariableElevationEvent where
  | SolarNoon
deriving DecidableEq, Repr

/-- Translated from src/src/domain.rs lines 201-204: any supported solar event. -/
inductive Event where
  | Fixed (e : FixedElevationEvent)
  | Variable (v : VariableElevationEvent)
deriving DecidableEq, Repr

/-- Translated from src/src/domain.rs lines 151-163: event names with required
data attached. -/
inductive EventName where
  | Sunrise
  | Sunset
  | CivilDawn
  | CivilDusk
  | NauticalDawn
  | NauticalDusk
  | AstronomicalDawn
  | AstronomicalDusk
  | CustomAM (a : Altitude)
  | CustomPM (a : Altitude)
  | SolarNoon
deriving DecidableEq, Repr

/-- Translated from Event::from_event_name, src/src/domain.rs lines 207-244.
The into() conversions of the source go through the panicking From f64
implementation, modelled by Altitude.fromF64 returning an Option. -/
def Event.from_event_name : EventName → Option Event
  | EventName.Sunrise =>
      (Altitude.fromF64 (F.val (833/1000))).map
        (fun a => Event.Fixed (FixedElevationEvent.new a Direction.Ascending))
  | EventName.Sunset =>
      (Altitude.fromF64 (F.val (833/1000))).map
        (fun a => Event.Fixed (FixedElevationEvent.new a Direction.Descending))
  | EventName.CivilDawn =>
      (Altitude.fromF64 (F.val 6)).map
        (fun a => Event.Fixed (FixedElevationEvent.new a Direction.Ascending))
  | EventName.CivilDusk =>
      (Altitude.fromF64 (F.val 6)).map
        (fun a => Event.Fixed (FixedElevationEvent.new a Direction.Descending))
  | EventName.NauticalDawn =>
      (Altitude.fromF64 (F.val 12)).map
        (fun a => Event.Fixed (FixedElevationEvent.new a Direction.Ascending))
  | EventName.NauticalDusk =>
      (Altitude.fromF64 (F.val 12)).map
        (fun a => Event.Fixed (FixedElevationEvent.new a Direction.Descending))
  | EventName.AstronomicalDawn =>
      (Altitude.fromF64 (F.val 18)).map
        (fun a => Event.Fixed (FixedElevationEvent.new a Direction.Ascending))
  | EventName.AstronomicalDusk =>
      (Altitude.fromF64 (F.val 18)).map
        (fun a => Event.Fixed (FixedElevationEvent.new a Direction.Descending))
  | EventName.CustomAM a =>
      some (Event.Fixed (FixedElevationEvent.new a Direction.Ascending))
  | EventName.CustomPM a =>
      some (Event.Fixed (FixedElevationEvent.new a Direction.Descending))
  | EventName.SolarNoon =>
      some (Event.Variable VariableElevationEvent.SolarNoon)

/-- Model of chrono DateTime with a FixedOffset: an absolute time measured in
fractional hours of UTC since an epoch, plus a fixed UTC offset in hours. -/
structure DateTimeFO where
  utcHours : ℚ
  offset : ℚ
deriving DecidableEq, Repr

/-- Local time of day in fractional hours in [0, 24): the model of the
NaiveTime extracted by chrono DateTime::time. -/
def DateTimeFO.timeOfDay (dt : DateTimeFO) : ℚ :=
  let h := dt.utcHours + dt.offset
  h - 24 * (⌊h / 24⌋ : ℚ)

/-- Rendering of a model datetime, standing in for chrono Display. -/
def DateTimeFO.render (dt : DateTimeFO) : String :=
  toString dt.utcHours.num ++ "/" ++ toString dt.utcHours.den ++ "h UTC, offset " ++
    toString dt.offset.num ++ "/" ++ toString dt.offset.den ++ "h"

/-- Shift a model datetime by a number of fractional hours. -/
def DateTimeFO.addHours (dt : DateTimeFO) (h : ℚ) : DateTimeFO :=
  DateTimeFO.mk (dt.utcHours + h) dt.offset

/-- Translated from src/src/domain.rs line 63: newtype for an optional datetime. -/
structure EventTime where
  val : Option DateTimeFO
deriving DecidableEq, Repr

/-- Translated from EventTime::new, src/src/domain.rs lines 66-68. -/
def EventTime.new (datetime : Option DateTimeFO) : EventTime :=
  EventTime.mk datetime

/-- Translated from EventTime::is_some, src/src/domain.rs lines 70-72. -/
def EventTime.is_some (e : EventTime) : Bool := e.val.isSome

/-- Translated from EventTime::time, src/src/domain.rs lines 74-76. -/
def EventTime.time (e : EventTime) : Option ℚ :=
  e.val.map DateTimeFO.timeOfDay

/-- Translated from the Display implementation of EventTime, src/src/domain.rs
lines 79-90: an absent value renders as the literal Never. -/
def EventTime.display (e : EventTime) : String :=
  match e.val with
  | some dt => dt.render
  | none => "Never"

/-- Modelled from the spec: the solar-calculation module (SolarCalculations and
the event-time resolver of spec sections 4.1 and 4.2) is not part of the
source snapshot, so the real trigonometric functions of the Meeus/NOAA chain
are represented by fixed-degree rational approximations; none of the claims
settled against this model depend on trigonometric accuracy. This constant is
a rational approximation of pi. -/
def qpi : ℚ := 355 / 113

/-- Degrees to radians. -/
def torad (d : ℚ) : ℚ := d * qpi / 180

/-- Radians to degrees. -/
def todeg (r : ℚ) : ℚ := r * 180 / qpi

/-- Range reduction of an angle into [-pi, pi) modulo 2 pi. -/
def reduceAngle (x : ℚ) : ℚ := x - 2 * qpi * (⌊x / (2 * qpi) + 1/2⌋ : ℚ)

/-- Degree-9 Taylor polynomial of the sine about 0. -/
def sinTaylor (x : ℚ) : ℚ := x - x^3/6 + x^5/120 - x^7/5040 + x^9/362880

/-- Modelled from the spec: sine of an angle in radians. -/
def qsin (x : ℚ) : ℚ := sinTaylor (reduceAngle x)

/-- Modelled from the spec: cosine of an angle in radians. -/
def qcos (x : ℚ) : ℚ := qsin (qpi / 2 - x)

/-- Degree-7 Taylor polynomial of the arcsine about 0. -/
def asinTaylor (x : ℚ) : ℚ := x + x^3/6 + 3*x^5/40 + 15*x^7/336

/-- Modelled from the spec: arcsine, radians. -/
def qasin (x : ℚ) : ℚ := asinTaylor x

/-- Modelled from the spec: arccosine, radians. -/
def qacos (x : ℚ) : ℚ := qpi / 2 - asinTaylor x

/-- Modelled from the spec: tangent. -/
def qtan (x : ℚ) : ℚ := qsin x / qcos x

/-- Modelled from the spec section 4.1: Julian Century of the instant; the
epoch of DateTimeFO.utcHours is taken at J2000 noon. -/
def julianCentury (dt : DateTimeFO) : ℚ := dt.utcHours / (24 * 36525)

/-- Modelled from the spec section 4.1: geometric mean longitude of the Sun,
degrees. -/
def geomMeanLongSun (t : ℚ) : ℚ := 280.46646 + t * (36000.76983 + t * 0.0003032)

/-- Modelled from the spec section 4.1: geometric mean anomaly of the Sun,
degrees. -/
def geomMeanAnomSun (t : ℚ) : ℚ := 357.52911 + t * (35999.05029 - 0.0001537 * t)

/-- Modelled from the spec section 4.1: eccentricity of the orbit of Earth. -/
def eccentEarthOrbit (t : ℚ) : ℚ := 0.016708634 - t * (0.000042037 + 0.0000001267 * t)

/-- Modelled from the spec section 4.1: equation of the center of the Sun. -/
def sunEqOfCenter (t : ℚ) : ℚ :=
  let m := geomMeanAnomSun t
  qsin (torad m) * (1.914602 - t * (0.004817 + 0.000014 * t))
    + qsin (torad (2 * m)) * (0.019993 - 0.000101 * t)
    + qsin (torad (3 * m)) * 0.000289

/-- Modelled from the spec section 4.1: true longitude of the Sun, degrees. -/
def sunTrueLong (t : ℚ) : ℚ := geomMeanLongSun t + sunEqOfCenter t

/-- Modelled from the spec section 4.1: apparent longitude of the Sun, degrees. -/
def sunAppLong (t : ℚ) : ℚ :=
  sunTrueLong t - 0.00569 - 0.00478 * qsin (torad (125.04 - 1934.136 * t))

/-- Modelled from the spec section 4.1: mean obliquity of the ecliptic, degrees. -/
def meanObliqEcliptic (t : ℚ) : ℚ :=
  23 + (26 + (21.448 - t * (46.815 + t * (0.00059 - t * 0.001813))) / 60) / 60

/-- Modelled from the spec section 4.1: corrected obliquity, degrees. -/
def obliqCorr (t : ℚ) : ℚ :=
  meanObliqEcliptic t + 0.00256 * qcos (torad (125.04 - 1934.136 * t))

/-- Modelled from the spec section 4.1: solar declination, degrees. -/
def solarDecl (t : ℚ) : ℚ :=
  todeg (qasin (qsin (torad (obliqCorr t)) * qsin (torad (sunAppLong t))))

/-- Modelled from the spec section 4.1: equation of time, minutes. -/
def eqOfTime (t : ℚ) : ℚ :=
  let vary := qtan (torad (obliqCorr t) / 2) ^ 2
  let l0 := geomMeanLongSun t
  let m := geomMeanAnomSun t
  let e := eccentEarthOrbit t
  4 * todeg (vary * qsin (2 * torad l0) - 2 * e * qsin (torad m)
    + 4 * e * vary * qsin (torad m) * qcos (2 * torad l0)
    - (1/2) * vary ^ 2 * qsin (4 * torad l0)
    - (5/4) * e ^ 2 * qsin (2 * torad m))

/-- Modelled from the spec sections 3 and 4.1: SolarCalculations owns an
instant and coordinates and caches the per-instant astronomical quantities
(solar declination in degrees and equation of time in minutes). -/
structure SolarCalculations where
  instant : DateTimeFO
  coordinates : Coordinates
  declination : ℚ
  eqOfTimeMinutes : ℚ
deriving DecidableEq, Repr

/-- Modelled from the spec section 4.1: construction is a pure function of the
instant and the coordinates, computing and caching the derived quantities. -/
def SolarCalculations.new (instant : DateTimeFO) (coordinates : Coordinates) :
    SolarCalculations :=
  let t := julianCentury instant
  SolarCalculations.mk instant coordinates (solarDecl t) (eqOfTime t)

/-- Modelled from the spec section 4.1: refresh rebuilds the calculator for
the same coordinates with a new instant; the original value is untouched. -/
def SolarCalculations.refresh (c : SolarCalculations) (newInstant : DateTimeFO) :
    SolarCalculations :=
  SolarCalculations.new newInstant c.coordinates

/-- Modelled from the spec section 4.2: solar noon is 12:00 local civil time
minus (equation of time + 4 times longitude) minutes, expressed in the UTC
offset of the instant and anchored to the civil date of the instant. -/
def SolarCalculations.solarNoonInstant (c : SolarCalculations) : DateTimeFO :=
  let localDay : ℚ := (⌊(c.instant.utcHours + c.instant.offset) / 24⌋ : ℚ)
  let localNoonUtc : ℚ := 24 * localDay + 12 - c.instant.offset
  DateTimeFO.mk
    (localNoonUtc - (c.eqOfTimeMinutes + 4 * (c.coordinates.longitude.deref).toRat) / 60)
    c.instant.offset

/-- Modelled from the spec section 4.1: true solar time of the instant, minutes. -/
def SolarCalculations.trueSolarTimeMinutes (c : SolarCalculations) : ℚ :=
  c.instant.timeOfDay * 60 + c.eqOfTimeMinutes
    + 4 * (c.coordinates.longitude.deref).toRat - 60 * c.instant.offset

/-- Modelled from the spec section 4.1: hour angle of the instant, degrees,
signed and zero at solar noon. -/
def SolarCalculations.hourAngleDeg (c : SolarCalculations) : ℚ :=
  c.trueSolarTimeMinutes / 4 - 180

/-- Modelled from the spec section 4.1: solar elevation in degrees via
asin(sin lat sin dec + cos lat cos dec cos hour-angle). -/
def SolarCalculations.solar_elevation (c : SolarCalculations) : ℚ :=
  let lat := torad (c.coordinates.latitude.deref).toRat
  let dec := torad c.declination
  todeg (qasin (qsin lat * qsin dec + qcos lat * qcos dec * qcos (torad c.hourAngleDeg)))

/-- Modelled from the spec section 4.2: the argument passed to acos in the
hour-angle equation for a fixed-elevation event threshold. -/
def SolarCalculations.acosArgument (c : SolarCalculations) (threshold : Altitude) : ℚ :=
  let lat := torad (c.coordinates.latitude.deref).toRat
  let dec := torad c.declination
  (qsin (torad (threshold.deref).toRat) - qsin lat * qsin dec) / (qcos lat * qcos dec)

/-- Modelled from the spec section 4.2: the solved hour angle of a
fixed-elevation event, degrees. -/
def SolarCalculations.hourAngle0 (c : SolarCalculations) (threshold : Altitude) : ℚ :=
  todeg (qacos (c.acosArgument threshold))

/-- Modelled from the spec section 4.2: resolve(event, calc) returns an
EventTime; an acos argument outside [-1, 1] yields an absent EventTime,
otherwise the event instant is solar noon minus (Ascending) or plus
(Descending) hour-angle/15 hours; solar noon resolves in closed form. -/
def resolve (e : Event) (c : SolarCalculations) : EventTime :=
  match e with
  | Event.Variable VariableElevationEvent.SolarNoon =>
      EventTime.mk (some c.solarNoonInstant)
  | Event.Fixed fe =>
      let x := c.acosArgument fe.degrees_below_horizon
      if x < -1 ∨ 1 < x then EventTime.mk none
      else
        let off := c.hourAngle0 fe.degrees_below_horizon / 15
        match fe.solar_direction with
        | Direction.Ascending => EventTime.mk (some (c.solarNoonInstant.addHours (-off)))
        | Direction.Descending => EventTime.mk (some (c.solarNoonInstant.addHours off))

/-- A concrete arctic coordinate pair used to exhibit polar night. -/
def arcticCoords : Coordinates :=
  Coordinates.mk (Latitude.mk (F.val 89)) (Longitude.mk (F.val 0))

/-- A concrete calculator value whose cached declination corresponds to a
mid-winter date, exhibiting polar night at 89 degrees north. -/
def polarNightCalc : SolarCalculations :=
  SolarCalculations.mk (DateTimeFO.mk 0 0) arcticCoords (-23) 0

/-- A concrete calculator value at the equator with zero declination, as on an
equinox date. -/
def equatorCalc : SolarCalculations :=
  SolarCalculations.mk (DateTimeFO.mk 0 0)
    (Coordinates.mk (Latitude.mk (F.val 0)) (Longitude.mk (F.val 0))) 0 0

/-- Unfolding lemma for the strict float comparison on finite values. -/
theorem F.lt_val (a b : ℚ) : F.lt (F.val a) (F.val b) = decide (a < b) := rfl

/-- Unfolding lemma for the non-strict float comparison on finite values. -/
theorem F.le_val (a b : ℚ) : F.le (F.val a) (F.val b) = decide (a ≤ b) := rfl

/-- The classifier on a finite value equals a chain of rational comparisons. -/
theorem classify_val_eq (q : ℚ) :
    DayPart.from_elevation_angle (F.val q) =
      if q < -18 then DayPart.Night
      else if q < -12 then DayPart.AstronomicalTwilight
      else if q < -6 then DayPart.NauticalTwilight
      else if q < 833/1000 then DayPart.CivilTwilight
      else DayPart.Day := by
  simp only [DayPart.from_elevation_angle, F.lt_val, decide_eq_true_eq]

/-- C1: the day-part classifier is a total function of the elevation value and
partitions the finite values exactly into the five categories along the
breakpoints -18, -12, -6 and 0.833, each boundary belonging to the
lower-elevation-exclusive side, so the four boundary inputs classify as
Astronomical Twilight, Nautical Twilight, Civil Twilight and Day. -/
theorem c1_classifier_partition :
    (∀ q : ℚ,
      (DayPart.from_elevation_angle (F.val q) = DayPart.Night ↔ q < -18) ∧
      (DayPart.from_elevation_angle (F.val q) = DayPart.AstronomicalTwilight ↔
        -18 ≤ q ∧ q < -12) ∧
      (DayPart.from_elevation_angle (F.val q) = DayPart.NauticalTwilight ↔
        -12 ≤ q ∧ q < -6) ∧
      (DayPart.from_elevation_angle (F.val q) = DayPart.CivilTwilight ↔
        -6 ≤ q ∧ q < 833/1000) ∧
      (DayPart.from_elevation_angle (F.val q) = DayPart.Day ↔ 833/1000 ≤ q)) ∧
    DayPart.from_elevation_angle (F.val (-18)) = DayPart.AstronomicalTwilight ∧
    DayPart.from_elevation_angle (F.val (-12)) = DayPart.NauticalTwilight ∧
    DayPart.from_elevation_angle (F.val (-6)) = DayPart.CivilTwilight ∧
    DayPart.from_elevation_angle (F.val (833/1000)) = DayPart.Day := by
  refine ⟨fun q => ?_, by rw [classify_val_eq]; norm_num, by rw [classify_val_eq]; norm_num,
    by rw [classify_val_eq]; norm_num, by rw [classify_val_eq]; norm_num⟩
  rw [classify_val_eq]
  split_ifs with h1 h2 h3 h4
  · exact ⟨⟨fun _ => h1, fun _ => rfl⟩,
      ⟨fun h => by simp at h, fun h => absurd h.1 (not_le.mpr h1)⟩,
      ⟨fun h => by simp at h, fun h => absurd h.1 (not_le.mpr (h1.trans (by norm_num)))⟩,
      ⟨fun h => by simp at h, fun h => absurd h.1 (not_le.mpr (h1.trans (by norm_num)))⟩,
      ⟨fun h => by simp at h, fun h => absurd (h.trans_lt h1) (by norm_num)⟩⟩
  · exact ⟨⟨fun h => by simp at h, fun hlt => absurd hlt h1⟩,
      ⟨fun _ => ⟨not_lt.mp h1, h2⟩, fun _ => rfl⟩,
      ⟨fun h => by simp at h, fun h => absurd h2 (not_lt.mpr h.1)⟩,
      ⟨fun h => by simp at h, fun h => absurd h2 (not_lt.mpr (le_trans (by norm_num) h.1))⟩,
      ⟨fun h => by simp at h, fun h => absurd h2 (not_lt.mpr (le_trans (by norm_num) h))⟩⟩
  · exact ⟨⟨fun h => by simp at h, fun hlt => absurd hlt h1⟩,
      ⟨fun h => by simp at h, fun h => absurd h.2 h2⟩,
      ⟨fun _ => ⟨not_lt.mp h2, h3⟩, fun _ => rfl⟩,
      ⟨fun h => by simp at h, fun h => absurd h3 (not_lt.mpr h.1)⟩,
      ⟨fun h => by simp at h, fun h => absurd h3 (not_lt.mpr (le_trans (by norm_num) h))⟩⟩
  · exact ⟨⟨fun h => by simp at h, fun hlt => absurd hlt h1⟩,
      ⟨fun h => by simp at h, fun h => absurd h.2 h2⟩,
      ⟨fun h => by simp at h, fun h => absurd h.2 h3⟩,
      ⟨fun _ => ⟨not_lt.mp h3, h4⟩, fun _ => rfl⟩,
      ⟨fun h => by simp at h, fun h => absurd h4 (not_lt.mpr h)⟩⟩
  · exact ⟨⟨fun h => by simp at h, fun hlt => absurd hlt h1⟩,
      ⟨fun h => by simp at h, fun h => absurd h.2 h2⟩,
      ⟨fun h => by simp at h, fun h => absurd h.2 h3⟩,
      ⟨fun h => by simp at h, fun h => absurd h.2 h4⟩,
      ⟨fun _ => not_lt.mp h4, fun _ => rfl⟩⟩

/-- C9: NaN input falls through every comparison of the branch chain, so the
classifier returns Day for NaN rather than failing or returning Night. -/
theorem c9_nan_classifies_day :
    (∀ b : F, F.lt F.nan b = false) ∧
    DayPart.from_elevation_angle F.nan = DayPart.Day :=
  ⟨fun b => by cases b <;> rfl, rfl⟩

/-- Closed form of Latitude.new on a finite value: an ok wrapping the exact
input inside the closed range, an error carrying the message outside it. -/
theorem latitude_new_eq (q : ℚ) :
    Latitude.new (F.val q) =
      if -90 ≤ q ∧ q ≤ 90 then Except.ok (Latitude.mk (F.val q))
      else Except.error (latitudeMsg (F.render (F.val q))) := by
  simp only [Latitude.new, F.le_val, Bool.and_eq_true, decide_eq_true_eq]

/-- Closed form of Longitude.new on a finite value. -/
theorem longitude_new_eq (q : ℚ) :
    Longitude.new (F.val q) =
      if -180 ≤ q ∧ q ≤ 180 then Except.ok (Longitude.mk (F.val q))
      else Except.error (longitudeMsgNew (F.render (F.val q))) := by
  simp only [Longitude.new, F.le_val, Bool.and_eq_true, decide_eq_true_eq]

/-- Closed form of Altitude.new on a finite value. -/
theorem altitude_new_eq (q : ℚ) :
    Altitude.new (F.val q) =
      if -90 ≤ q ∧ q ≤ 90 then Except.ok (Altitude.mk (F.val q))
      else Except.error (altitudeMsg (F.render (F.val q))) := by
  simp only [Altitude.new, F.le_val, Bool.and_eq_true, decide_eq_true_eq]

/-- C2: for every finite value, construction of Latitude succeeds exactly on
the closed range -90 to 90 and the constructed value dereferences to exactly
the input; outside the range construction returns a validation failure; and
likewise for Longitude over -180 to 180 and Altitude over -90 to 90. -/
theorem c2_value_type_validation :
    ∀ q : ℚ,
      ((∃ l : Latitude, Latitude.new (F.val q) = Except.ok l ∧ l.deref = F.val q) ↔
        -90 ≤ q ∧ q ≤ 90) ∧
      ((∃ m : String, Latitude.new (F.val q) = Except.error m) ↔ ¬(-90 ≤ q ∧ q ≤ 90)) ∧
      ((∃ l : Longitude, Longitude.new (F.val q) = Except.ok l ∧ l.deref = F.val q) ↔
        -180 ≤ q ∧ q ≤ 180) ∧
      ((∃ m : String, Longitude.new (F.val q) = Except.error m) ↔ ¬(-180 ≤ q ∧ q ≤ 180)) ∧
      ((∃ a : Altitude, Altitude.new (F.val q) = Except.ok a ∧ a.deref = F.val q) ↔
        -90 ≤ q ∧ q ≤ 90) ∧
      ((∃ m : String, Altitude.new (F.val q) = Except.error m) ↔ ¬(-90 ≤ q ∧ q ≤ 90)) := by
  intro q
  refine ⟨?_, ?_, ?_, ?_, ?_, ?_⟩
  · rw [latitude_new_eq]
    by_cases h : -90 ≤ q ∧ q ≤ 90
    · rw [if_pos h]; simp [Latitude.deref, h]
    · rw [if_neg h]; simp [h]
  · rw [latitude_new_eq]
    by_cases h : -90 ≤ q ∧ q ≤ 90
    · rw [if_pos h]; simp [h]
    · rw [if_neg h]; simp [h]
  · rw [longitude_new_eq]
    by_cases h : -180 ≤ q ∧ q ≤ 180
    · rw [if_pos h]; simp [Longitude.deref, h]
    · rw [if_neg h]; simp [h]
  · rw [longitude_new_eq]
    by_cases h : -180 ≤ q ∧ q ≤ 180
    · rw [if_pos h]; simp [h]
    · rw [if_neg h]; simp [h]
  · rw [altitude_new_eq]
    by_cases h : -90 ≤ q ∧ q ≤ 90
    · rw [if_pos h]; simp [Altitude.deref, h]
    · rw [if_neg h]; simp [h]
  · rw [altitude_new_eq]
    by_cases h : -90 ≤ q ∧ q ≤ 90
    · rw [if_pos h]; simp [h]
    · rw [if_neg h]; simp [h]

/-- Conversion through the panicking From implementation succeeds on the
closed altitude range and returns the wrapped input unchanged. -/
theorem altitude_fromF64_ok (q : ℚ) (h1 : -90 ≤ q) (h2 : q ≤ 90) :
    Altitude.fromF64 (F.val q) = some (Altitude.mk (F.val q)) := by
  unfold Altitude.fromF64
  rw [altitude_new_eq, if_pos ⟨h1, h2⟩]
  rfl

/-- C3: the event table of Event::from_event_name maps each named event to the
documented fixed-elevation descriptor (threshold constants 0.833, 6, 12, 18,
dawn ascending and dusk descending), keeps the caller-supplied altitude for
the custom events, and maps SolarNoon to the variable-elevation variant. -/
theorem c3_event_name_table :
    Event.from_event_name EventName.Sunrise =
      some (Event.Fixed (FixedElevationEvent.mk (Altitude.mk (F.val (833/1000)))
        Direction.Ascending)) ∧
    Event.from_event_name EventName.Sunset =
      some (Event.Fixed (FixedElevationEvent.mk (Altitude.mk (F.val (833/1000)))
        Direction.Descending)) ∧
    Event.from_event_name EventName.CivilDawn =
      some (Event.Fixed (FixedElevationEvent.mk (Altitude.mk (F.val 6)) Direction.Ascending)) ∧
    Event.from_event_name EventName.CivilDusk =
      some (Event.Fixed (FixedElevationEvent.mk (Altitude.mk (F.val 6)) Direction.Descending)) ∧
    Event.from_event_name EventName.NauticalDawn =
      some (Event.Fixed (FixedElevationEvent.mk (Altitude.mk (F.val 12)) Direction.Ascending)) ∧
    Event.from_event_name EventName.NauticalDusk =
      some (Event.Fixed (FixedElevationEvent.mk (Altitude.mk (F.val 12)) Direction.Descending)) ∧
    Event.from_event_name EventName.AstronomicalDawn =
      some (Event.Fixed (FixedElevationEvent.mk (Altitude.mk (F.val 18)) Direction.Ascending)) ∧
    Event.from_event_name EventName.AstronomicalDusk =
      some (Event.Fixed (FixedElevationEvent.mk (Altitude.mk (F.val 18)) Direction.Descending)) ∧
    (∀ a : Altitude, Event.from_event_name (EventName.CustomAM a) =
      some (Event.Fixed (FixedElevationEvent.mk a Direction.Ascending))) ∧
    (∀ a : Altitude, Event.from_event_name (EventName.CustomPM a) =
      some (Event.Fixed (FixedElevationEvent.mk a Direction.Descending))) ∧
    Event.from_event_name EventName.SolarNoon =
      some (Event.Variable VariableElevationEvent.SolarNoon) := by
  refine ⟨?_, ?_, ?_, ?_, ?_, ?_, ?_, ?_, fun a => rfl, fun a => rfl, rfl⟩
  all_goals
    (simp only [Event.from_event_name];
     rw [altitude_fromF64_ok _ (by norm_num) (by norm_num)];
     rfl)

/-- C10: the From f64 conversion for Altitude panics (modelled: returns none)
exactly outside the closed range -90 to 90, and every conversion performed by
Event::from_event_name uses an in-range constant or an already validated
altitude, so converting any named event never reaches the panic. -/
theorem c10_unwrap_unreachable :
    (∀ q : ℚ, ¬(-90 ≤ q ∧ q ≤ 90) → Altitude.fromF64 (F.val q) = none) ∧
    Altitude.fromF64 F.nan = none ∧
    (∀ e : EventName, (Event.from_event_name e).isSome = true) := by
  refine ⟨fun q h => ?_, rfl, fun e => ?_⟩
  · unfold Altitude.fromF64
    rw [altitude_new_eq, if_neg h]
    rfl
  · cases e <;> simp only [Event.from_event_name] <;>
      first
        | rfl
        | (rw [altitude_fromF64_ok _ (by norm_num) (by norm_num)]; rfl)

/-- Witness for C10 at the concrete out-of-range input 91 and the concrete
event name Sunrise. -/
theorem c10_witness :
    Altitude.fromF64 (F.val 91) = none ∧
    (Event.from_event_name EventName.Sunrise).isSome = true :=
  ⟨c10_unwrap_unreachable.1 91 (by norm_num), c10_unwrap_unreachable.2.2 EventName.Sunrise⟩

/-- C8: EventTime exposes the absent/present distinction losslessly:
construction preserves presence, is_some reports it, time returns a
time-of-day exactly for present values, and rendering maps absence to the
literal Never and presence to the rendering of the contained instant. -/
theorem c8_eventtime_lossless :
    ∀ o : Option DateTimeFO,
      ((EventTime.new o).is_some = true ↔ o.isSome = true) ∧
      ((EventTime.new o).time.isSome = true ↔ o.isSome = true) ∧
      (∀ dt : DateTimeFO, (EventTime.new (some dt)).time = some dt.timeOfDay) ∧
      (EventTime.new none).display = "Never" ∧
      (∀ dt : DateTimeFO, (EventTime.new (some dt)).display = dt.render) := by
  intro o
  refine ⟨Iff.rfl, ?_, fun dt => rfl, rfl, fun dt => rfl⟩
  cases o <;> simp [EventTime.new, EventTime.time]

/-- C5: refreshing a calculator built at one instant to a second instant
yields exactly the calculator built directly at the second instant over the
same coordinates, hence identical elevation and event-resolution results; and
the original calculator value is unchanged, still carrying its own instant
and coordinates. -/
theorem c5_refresh_reconstructs :
    ∀ (i1 i2 : DateTimeFO) (co : Coordinates),
      (SolarCalculations.new i1 co).refresh i2 = SolarCalculations.new i2 co ∧
      ((SolarCalculations.new i1 co).refresh i2).solar_elevation =
        (SolarCalculations.new i2 co).solar_elevation ∧
      (∀ e : Event, resolve e ((SolarCalculations.new i1 co).refresh i2) =
        resolve e (SolarCalculations.new i2 co)) ∧
      (SolarCalculations.new i1 co).instant = i1 ∧
      (SolarCalculations.new i1 co).coordinates = co :=
  fun i1 i2 co => ⟨rfl, rfl, fun e => rfl, rfl, rfl⟩

/-- The range reduction is the identity on angles already inside one period
centred at zero. -/
theorem reduceAngle_eq_self (x : ℚ) (h1 : -(355/113) ≤ x) (h2 : x < 355/113) :
    reduceAngle x = x := by
  have hf : ⌊x / (2 * qpi) + 1/2⌋ = 0 := by
    rw [Int.floor_eq_zero_iff, Set.mem_Ico]
    constructor
    · have h3 : -(1/2 : ℚ) ≤ x / (2 * qpi) := by
        rw [le_div_iff (by norm_num [qpi])]
        norm_num [qpi]
        linarith
      linarith
    · have h3 : x / (2 * qpi) < 1/2 := by
        rw [div_lt_iff (by norm_num [qpi])]
        norm_num [qpi]
        linarith
      linarith
  unfold reduceAngle
  rw [hf]
  push_cast
  ring

/-- C4: for every calculator and fixed-elevation event whose acos argument
falls outside [-1, 1] (permanent day or permanent night), resolve returns an
absent EventTime instead of an error, while resolving solar noon on the same
calculator still returns a present instant. -/
theorem c4_polar_never (c : SolarCalculations) (fe : FixedElevationEvent)
    (h : c.acosArgument fe.degrees_below_horizon < -1 ∨
      1 < c.acosArgument fe.degrees_below_horizon) :
    resolve (Event.Fixed fe) c = EventTime.mk none ∧
    resolve (Event.Variable VariableElevationEvent.SolarNoon) c =
      EventTime.mk (some c.solarNoonInstant) ∧
    (resolve (Event.Variable VariableElevationEvent.SolarNoon) c).is_some = true := by
  refine ⟨?_, rfl, rfl⟩
  simp only [resolve]
  rw [if_pos h]

/-- Witness for C4 at the concrete polar-night calculator: the sunrise
threshold of 0.833 degrees at 89 degrees north with mid-winter declination
yields an acos argument above 1, an absent sunrise and a present solar noon. -/
theorem c4_witness :
    resolve (Event.Fixed (FixedElevationEvent.mk (Altitude.mk (F.val (833/1000)))
      Direction.Ascending)) polarNightCalc = EventTime.mk none ∧
    resolve (Event.Variable VariableElevationEvent.SolarNoon) polarNightCalc =
      EventTime.mk (some polarNightCalc.solarNoonInstant) ∧
    (resolve (Event.Variable VariableElevationEvent.SolarNoon) polarNightCalc).is_some = true :=
  c4_polar_never polarNightCalc
    (FixedElevationEvent.mk (Altitude.mk (F.val (833/1000))) Direction.Ascending)
    (Or.inr (by
      have e1 : reduceAngle (torad (833/1000)) = torad (833/1000) :=
        reduceAngle_eq_self _ (by norm_num [torad, qpi]) (by norm_num [torad, qpi])
      have e2 : reduceAngle (torad 89) = torad 89 :=
        reduceAngle_eq_self _ (by norm_num [torad, qpi]) (by norm_num [torad, qpi])
      have e3 : reduceAngle (torad (-23)) = torad (-23) :=
        reduceAngle_eq_self _ (by norm_num [torad, qpi]) (by norm_num [torad, qpi])
      have e4 : reduceAngle (qpi / 2 - torad 89) = qpi / 2 - torad 89 :=
        reduceAngle_eq_self _ (by norm_num [torad, qpi]) (by norm_num [torad, qpi])
      have e5 : reduceAngle (qpi / 2 - torad (-23)) = qpi / 2 - torad (-23) :=
        reduceAngle_eq_self _ (by norm_num [torad, qpi]) (by norm_num [torad, qpi])
      simp only [SolarCalculations.acosArgument, polarNightCalc, arcticCoords,
        Latitude.deref, Altitude.deref, F.toRat, qsin, qcos]
      rw [e1, e2, e3, e4, e5]
      norm_num [sinTaylor, torad, qpi]))

/-- C6: whenever the hour-angle equation of a fixed-elevation event has a
solution, the ascending event resolves to solar noon minus hour-angle/15
hours and the descending event to solar noon plus the same offset, so the two
events for one threshold are symmetric about solar noon. -/
theorem c6_noon_symmetry (c : SolarCalculations) (thr : Altitude)
    (h : -1 ≤ c.acosArgument thr ∧ c.acosArgument thr ≤ 1) :
    resolve (Event.Fixed (FixedElevationEvent.mk thr Direction.Ascending)) c =
      EventTime.mk (some (c.solarNoonInstant.addHours (-(c.hourAngle0 thr / 15)))) ∧
    resolve (Event.Fixed (FixedElevationEvent.mk thr Direction.Descending)) c =
      EventTime.mk (some (c.solarNoonInstant.addHours (c.hourAngle0 thr / 15))) ∧
    (c.solarNoonInstant.addHours (-(c.hourAngle0 thr / 15))).utcHours
      + (c.solarNoonInstant.addHours (c.hourAngle0 thr / 15)).utcHours
      = 2 * c.solarNoonInstant.utcHours := by
  have hn : ¬(c.acosArgument thr < -1 ∨ 1 < c.acosArgument thr) := by
    push_neg
    exact h
  refine ⟨?_, ?_, ?_⟩
  · simp only [resolve]
    rw [if_neg hn]
  · simp only [resolve]
    rw [if_neg hn]
  · simp only [DateTimeFO.addHours]
    ring

/-- Witness for C6 at the concrete equatorial calculator with threshold 0:
the acos argument evaluates inside [-1, 1], so both directions resolve
symmetrically about solar noon. -/
theorem c6_witness :
    resolve (Event.Fixed (FixedElevationEvent.mk (Altitude.mk (F.val 0)) Direction.Ascending))
      equatorCalc =
      EventTime.mk (some (equatorCalc.solarNoonInstant.addHours
        (-(equatorCalc.hourAngle0 (Altitude.mk (F.val 0)) / 15)))) ∧
    resolve (Event.Fixed (FixedElevationEvent.mk (Altitude.mk (F.val 0)) Direction.Descending))
      equatorCalc =
      EventTime.mk (some (equatorCalc.solarNoonInstant.addHours
        (equatorCalc.hourAngle0 (Altitude.mk (F.val 0)) / 15))) ∧
    (equatorCalc.solarNoonInstant.addHours
        (-(equatorCalc.hourAngle0 (Altitude.mk (F.val 0)) / 15))).utcHours
      + (equatorCalc.solarNoonInstant.addHours
        (equatorCalc.hourAngle0 (Altitude.mk (F.val 0)) / 15)).utcHours
      = 2 * equatorCalc.solarNoonInstant.utcHours :=
  c6_noon_symmetry equatorCalc (Altitude.mk (F.val 0)) (by
    have e0 : reduceAngle (torad 0) = torad 0 :=
      reduceAngle_eq_self _ (by norm_num [torad, qpi]) (by norm_num [torad, qpi])
    simp only [SolarCalculations.acosArgument, equatorCalc, Latitude.deref, Altitude.deref,
      F.toRat, qsin, qcos]
    rw [e0]
    norm_num [sinTaylor, torad, qpi])

/-- C7 evaluated at the failing input: on the unparseable string abc,
Altitude::parse produces a failure whose message interpolates the constant
rendering of the parse error rather than the offending input (the input abc
does not occur in the message), whereas Latitude::parse on the same input
does embed the offending input in its message. -/
theorem c7_altitude_parse_drops_input :
    Altitude.parse "abc" = Except.error (altitudeMsg "invalid float literal") ∧
    hasSub "abc".data (altitudeMsg "invalid float literal").data = false ∧
    Latitude.parse "abc" = Except.error (latitudeMsg "abc") ∧
    hasSub "abc".data (latitudeMsg "abc").data = true ∧
    hasSub "-90.0 and 90.0".data (altitudeMsg "invalid float literal").data = true :=
  ⟨by decide, by decide, by decide, by decide, by decide⟩

/-- Witness for C1 at the concrete boundary-adjacent input -13, which the
classifier places in Astronomical Twilight. -/
theorem c1_witness :
    DayPart.from_elevation_angle (F.val (-13)) = DayPart.AstronomicalTwilight :=
  ((c1_classifier_partition.1 (-13)).2.1).mpr ⟨by norm_num, by norm_num⟩

/-- Witness for C2 at the concrete in-range latitude 45 and the concrete
out-of-range latitude 91. -/
theorem c2_witness :
    (∃ l : Latitude, Latitude.new (F.val 45) = Except.ok l ∧ l.deref = F.val 45) ∧
    (∃ m : String, Latitude.new (F.val 91) = Except.error m) :=
  ⟨((c2_value_type_validation 45).1).mpr ⟨by norm_num, by norm_num⟩,
    ((c2_value_type_validation 91).2.1).mpr (by norm_num)⟩

/-- Witness for C3 at the concrete event name Sunset. -/
theorem c3_witness :
    Event.from_event_name EventName.Sunset =
      some (Event.Fixed (FixedElevationEvent.mk (Altitude.mk (F.val (833/1000)))
        Direction.Descending)) :=
  c3_event_name_table.2.1

/-- Witness for C5 at two concrete instants one day apart over the arctic
coordinates. -/
theorem c5_witness :
    (SolarCalculations.new (DateTimeFO.mk 0 0) arcticCoords).refresh (DateTimeFO.mk 24 0) =
      SolarCalculations.new (DateTimeFO.mk 24 0) arcticCoords :=
  (c5_refresh_reconstructs (DateTimeFO.mk 0 0) (DateTimeFO.mk 24 0) arcticCoords).1

/-- Witness for C8 at a concrete present instant and the absent value. -/
theorem c8_witness :
    (EventTime.new (some (DateTimeFO.mk 0 0))).is_some = true ∧
    (EventTime.new (none : Option DateTimeFO)).display = "Never" :=
  ⟨(c8_eventtime_lossless (some (DateTimeFO.mk 0 0))).1.mpr rfl,
    (c8_eventtime_lossless none).2.2.2.1⟩

/-- Witness for C9, restated from the closed theorem at the NaN input. -/
theorem c9_witness : DayPart.from_elevation_angle F.nan = DayPart.Day :=
  c9_nan_classifies_day.2
